import Mathlib

/-!
# Verification of `mycroft/tts/__init__.py`

Shallow embedding of the Mycroft TTS core: the playback consumer thread
(`PlaybackThread.run` / `show_visimes` / `stop`), the phoneme cache
(`TTS.save_phonemes` / `TTS.load_phonemes`), the orchestrator (`TTS.execute`),
TTS construction (`TTS.__init__`) and the validator (`TTSValidator.validate`).

Modelling conventions:
* wall-clock time is idealized as exact rationals: `sleep` advances the clock
  by exactly its argument and everything else is instantaneous;
* the filesystem is a partial map `String → Option String` from path to
  contents; reads and writes succeed (the source logs and swallows I/O
  failures, which the claims under study do not exercise);
* external collaborators (`check_for_signal`, the enclosure, `md5`, the
  concrete backend `get_tts`, `curate_cache`) are parameters of the model;
  `curate_cache` and `get_tts` invocations are counted by instrumentation
  fields so that "is invoked / is not invoked" becomes a statement about
  state.
-/

namespace Mycroft.TTS

/-! ## Playback thread: viseme walk (`PlaybackThread.show_visimes`) -/

/--
Embedding of `PlaybackThread.show_visimes(self, pairs)`:

```
start = time()
for code, duration in pairs:
    if check_for_signal('stoppingTTS', -1): return
    if check_for_signal('buttonPress'):     return
    if self.enclosure:
        self.enclosure.mouth_viseme(code)
    delta = time() - start
    if delta < duration:
        sleep(duration - delta)
```

`stopSig i` / `buttonSig i` are the values the two `check_for_signal` polls
would observe on loop iteration `i` (signals are external collaborators).
`hasEncl` is the truthiness of `self.enclosure`.  `elapsed` is the idealized
`time() - start`.  The result is the list of `mouth_viseme` emissions, each
paired with the wall-clock time (since `start`) at which it is emitted.
-/
def show_visimes (stopSig buttonSig : Nat → Bool) (hasEncl : Bool) :
    Nat → ℚ → List (String × ℚ) → List (String × ℚ)
  | _, _, [] => []
  | i, elapsed, (code, duration) :: rest =>
    if stopSig i then []
    else if buttonSig i then []
    else
      let tail := show_visimes stopSig buttonSig hasEncl (i + 1)
        (max elapsed duration) rest
      if hasEncl then (code, elapsed) :: tail else tail

/--
Modelled from the spec: the walk the claim describes, in which each event
waits until the *cumulative sum* of durations and emits its code *after*
that wait.  Used only to compare the claim against the code.
-/
def show_visimesClaim : ℚ → List (String × ℚ) → List (String × ℚ)
  | _, [] => []
  | cum, (code, duration) :: rest =>
    (code, cum + duration) :: show_visimesClaim (cum + duration) rest

/-- Emission times of the source walk when no interrupt signal fires:
each event is emitted at the running maximum of the preceding duration
values (durations act as absolute targets from playback start). -/
def visemeTargets : ℚ → List ℚ → List ℚ
  | _, [] => []
  | e, d :: ds => e :: visemeTargets (max e d) ds

theorem show_visimes_no_signal (hasEncl : Bool) (evs : List (String × ℚ))
    (i : Nat) (e : ℚ) :
    show_visimes (fun _ => false) (fun _ => false) hasEncl i e evs =
      if hasEncl then
        List.zip (evs.map Prod.fst) (visemeTargets e (evs.map Prod.snd))
      else [] := by
  induction evs generalizing i e with
  | nil => cases hasEncl <;> simp [show_visimes, visemeTargets]
  | cons hd tl ih =>
    obtain ⟨c, d⟩ := hd
    cases hasEncl <;>
      simp [show_visimes, visemeTargets, ih]

/--
C1: the claim says the consumer sleeps until each event's *cumulative*
duration and emits the code *after* that wait (so `[(A,0.5),(B,0.3)]`
emits A at t=0.5 and B at t=0.8).  The code emits the code *before* the
wait and treats each duration value as an absolute target from playback
start: on `[(A,0.5),(B,0.3)]` it emits A at t=0 and B at t=0.5.
-/
theorem show_visimes_claim_counterexample :
    show_visimes (fun _ => false) (fun _ => false) true 0 0
        [("A", (1 : ℚ)/2), ("B", (3 : ℚ)/10)] = [("A", 0), ("B", (1 : ℚ)/2)] ∧
    show_visimesClaim 0 [("A", (1 : ℚ)/2), ("B", (3 : ℚ)/10)] =
        [("A", (1 : ℚ)/2), ("B", (4 : ℚ)/5)] ∧
    show_visimes (fun _ => false) (fun _ => false) true 0 0
        [("A", (1 : ℚ)/2), ("B", (3 : ℚ)/10)] ≠
      show_visimesClaim 0 [("A", (1 : ℚ)/2), ("B", (3 : ℚ)/10)] := by
  refine ⟨?_, ?_, ?_⟩ <;>
    · simp only [show_visimes, show_visimesClaim, ne_eq]
      norm_num [max_def]

/--
C1 (amended): with the enclosure attached and no interrupt signal observed,
the consumer walks the events in order, emitting each event's code first
and then sleeping the remaining delta between wall-clock elapsed time and
the event's duration value, which acts as an absolute offset from playback
start (not a cumulative sum); so every code is emitted, in order, at the
running maximum of the preceding duration values.  In particular for
`[(A, 0.5), (B, 0.3)]` the sequence is A at ~t=0 and B at ~t=0.5.
-/
theorem show_visimes_timing :
    (∀ (evs : List (String × ℚ)) (i : Nat) (e : ℚ),
      show_visimes (fun _ => false) (fun _ => false) true i e evs =
        List.zip (evs.map Prod.fst) (visemeTargets e (evs.map Prod.snd))) ∧
    show_visimes (fun _ => false) (fun _ => false) true 0 0
        [("A", (1 : ℚ)/2), ("B", (3 : ℚ)/10)] = [("A", 0), ("B", (1 : ℚ)/2)] := by
  constructor
  · intro evs i e
    simpa using show_visimes_no_signal true evs i e
  · simp only [show_visimes]
    norm_num [max_def]

/-! ## Synthesis cache (`TTS.save_phonemes` / `TTS.load_phonemes`) -/

/-- The characters Python's `str.strip()` removes (string.whitespace). -/
def pythonIsSpace (c : Char) : Bool :=
  c = ' ' || c = '\t' || c = '\n' || c = '\x0d' || c = '\x0b' || c = '\x0c'

/-- Python `s.strip()`: drop whitespace from both ends. -/
def pythonStrip (s : String) : String :=
  String.mk (((s.toList.dropWhile pythonIsSpace).reverse.dropWhile
    pythonIsSpace).reverse)

/-- `mycroft.util.get_cache_directory("tts")` (external collaborator),
modelled as a fixed directory path. -/
def cacheDir : String := "/tmp/mycroft/cache/tts"

/-- `os.path.join(cache_dir, name)`. -/
def joinPath (dir name : String) : String := dir ++ "/" ++ name

/-- Path of the `.pho` sibling file for a cache key (`key + ".pho"`). -/
def phoPath (key : String) : String := joinPath cacheDir (key ++ ".pho")

/-- A filesystem is a partial map from path to file contents. -/
def FileSys : Type := String → Option String

/-- Writing a file: the path now maps to the new contents, all other
paths are untouched. -/
def writeFile (fs : FileSys) (path contents : String) : FileSys :=
  fun q => if q = path then some contents else fs q

/--
State of one `TTS` instance and its environment: the cache filesystem,
the playback queue (jobs are `(self.type, wav_file, visimes)` triples as
put by `execute`), and two instrumentation counters observing how often
the external curation policy (`mycroft.util.curate_cache`) and the
backend (`self.get_tts`) have been invoked.
-/
structure TTSState where
  files : FileSys
  queue : List (String × String × List (String × ℚ))
  curateCount : Nat
  synthCount : Nat

/--
Embedding of `TTS.save_phonemes(self, key, phonemes)`:

```
cache_dir = mycroft.util.get_cache_directory("tts")
mycroft.util.curate_cache(cache_dir)
pho_file = os.path.join(cache_dir, key + ".pho")
with open(pho_file, "w") as cachefile:
    cachefile.write(phonemes)
```

Curation is an external collaborator; the model counts its invocation.
The write succeeds (on failure the source only logs).
-/
def save_phonemes (s : TTSState) (key phonemes : String) : TTSState :=
  { s with
    curateCount := s.curateCount + 1,
    files := writeFile s.files (phoPath key) phonemes }

/--
Embedding of `TTS.load_phonemes(self, key)`:

```
pho_file = os.path.join(mycroft.util.get_cache_directory("tts"), key+".pho")
if os.path.exists(pho_file):
    with open(pho_file, "r") as cachefile:
        phonemes = cachefile.read().strip()
    return phonemes
return None
```
-/
def load_phonemes (s : TTSState) (key : String) : Option String :=
  match s.files (phoPath key) with
  | some contents => some (pythonStrip contents)
  | none => none

/-- An empty initial state: no cached files, empty queue. -/
def emptyState : TTSState :=
  { files := fun _ => none, queue := [], curateCount := 0, synthCount := 0 }

/--
C2: the claim says store-then-load returns a payload byte-identical to
what was stored, for every payload.  It fails: `load_phonemes` applies
Python's `.strip()` to the file contents, so a payload with leading or
trailing whitespace comes back changed — storing `"a "` under key `"k"`
loads back as `"a"`.
-/
theorem phoneme_roundtrip_counterexample :
    load_phonemes (save_phonemes emptyState "k" "a ") "k" = some "a" ∧
    load_phonemes (save_phonemes emptyState "k" "a ") "k" ≠ some "a " := by
  constructor <;>
    simp [load_phonemes, save_phonemes, writeFile, pythonStrip,
      pythonIsSpace, emptyState]

/--
C2 (amended): for every key and every timing payload, storing the payload
with `save_phonemes` and loading it back with `load_phonemes` under the
same key returns the payload with leading and trailing whitespace
stripped; the round trip is byte-identical exactly when the payload
carries no leading or trailing whitespace.
-/
theorem phoneme_roundtrip (s : TTSState) (key payload : String) :
    load_phonemes (save_phonemes s key payload) key =
      some (pythonStrip payload) ∧
    (load_phonemes (save_phonemes s key payload) key = some payload ↔
      pythonStrip payload = payload) := by
  have h : load_phonemes (save_phonemes s key payload) key =
      some (pythonStrip payload) := by
    simp [load_phonemes, save_phonemes, writeFile]
  refine ⟨h, ?_⟩
  rw [h]
  simp

/-! ## Orchestrator (`TTS.execute`) -/

/--
A backend's `get_tts(self, sentence, wav_file)` (abstract in the source:
each engine implements it).  It receives the sentence and the hint output
path, acts on the filesystem, and either fails (an exception) or returns
the new filesystem together with the authoritative `(wav_file, phonemes)`
pair.
-/
def Backend : Type :=
  String → String → FileSys → Except String (FileSys × String × Option String)

/--
Embedding of `TTS.execute(self, sentence)`:

```
key = str(hashlib.md5(sentence.encode('utf-8', 'ignore')).hexdigest())
wav_file = os.path.join(mycroft.util.get_cache_directory("tts"),
                        key + self.type)
if os.path.exists(wav_file):
    phonemes = self.load_phonemes(key)
else:
    wav_file, phonemes = self.get_tts(sentence, wav_file)
    if phonemes:
        self.save_phonemes(key, phonemes)
self.queue.put((self.type, wav_file, self.visime(phonemes)))
```

`hash` models `md5(...).hexdigest()` (an external library call — any
deterministic digest), `ttsType` is `self.type`, `get_tts` the backend,
`visime` the engine's `self.visime`.  A Python exception raised by the
backend propagates out of `execute`; `Except.error` carries the exception
message together with the state at the moment of the raise.  `if phonemes:`
is Python truthiness: `None` and `""` are falsy.
-/
def execute (hash : String → String) (ttsType : String) (get_tts : Backend)
    (visime : Option String → List (String × ℚ))
    (sentence : String) (s : TTSState) : Except (String × TTSState) TTSState :=
  match s.files (joinPath cacheDir (hash sentence ++ ttsType)) with
  | some _ =>
      Except.ok { s with queue := s.queue ++
        [(ttsType, joinPath cacheDir (hash sentence ++ ttsType),
          visime (load_phonemes s (hash sentence)))] }
  | none =>
      match get_tts sentence (joinPath cacheDir (hash sentence ++ ttsType))
          s.files with
      | Except.error e => Except.error (e, s)
      | Except.ok (fs2, wavFile2, phonemes) =>
          let s2 : TTSState :=
            { s with files := fs2, synthCount := s.synthCount + 1 }
          let s3 : TTSState :=
            match phonemes with
            | some ph =>
                if ph = "" then s2 else save_phonemes s2 (hash sentence) ph
            | none => s2
          Except.ok
            { s3 with queue := s3.queue ++ [(ttsType, wavFile2, visime phonemes)] }

lemma execute_hit_eq (hash : String → String) (ttsType : String)
    (get_tts : Backend) (visime : Option String → List (String × ℚ))
    (sentence : String) (s : TTSState) (c : String)
    (hhit : s.files (joinPath cacheDir (hash sentence ++ ttsType)) = some c) :
    execute hash ttsType get_tts visime sentence s =
      Except.ok { s with queue := s.queue ++
        [(ttsType, joinPath cacheDir (hash sentence ++ ttsType),
          visime (load_phonemes s (hash sentence)))] } := by
  simp [execute, hhit]

lemma execute_miss_eq (hash : String → String) (ttsType : String)
    (get_tts : Backend) (visime : Option String → List (String × ℚ))
    (sentence : String) (s : TTSState) (fs2 : FileSys) (w2 : String)
    (ph : Option String)
    (hmiss : s.files (joinPath cacheDir (hash sentence ++ ttsType)) = none)
    (hget : get_tts sentence (joinPath cacheDir (hash sentence ++ ttsType))
        s.files = Except.ok (fs2, w2, ph)) :
    execute hash ttsType get_tts visime sentence s =
      Except.ok
        (let s2 : TTSState :=
          { s with files := fs2, synthCount := s.synthCount + 1 }
         let s3 : TTSState :=
          match ph with
          | some p2 =>
              if p2 = "" then s2 else save_phonemes s2 (hash sentence) p2
          | none => s2
         { s3 with queue := s3.queue ++ [(ttsType, w2, visime ph)] }) := by
  cases ph <;> simp [execute, hmiss, hget]

/--
C8: on a cache hit (the artifact already exists at the fingerprint-derived
path) `execute` leaves the cache untouched: no file is written, the
curation policy is not invoked and the backend is not invoked; the only
state change is the playback job appended to the queue.
-/
theorem execute_cache_hit_frame (hash : String → String) (ttsType : String)
    (get_tts : Backend) (visime : Option String → List (String × ℚ))
    (sentence : String) (s : TTSState) (c : String)
    (hhit : s.files (joinPath cacheDir (hash sentence ++ ttsType)) = some c) :
    execute hash ttsType get_tts visime sentence s =
      Except.ok { s with queue := s.queue ++
        [(ttsType, joinPath cacheDir (hash sentence ++ ttsType),
          visime (load_phonemes s (hash sentence)))] } :=
  execute_hit_eq hash ttsType get_tts visime sentence s c hhit

/-- A state whose cache already holds the artifact for sentence `"hi"`
under the identity digest and type `".wav"`. -/
def hitState : TTSState :=
  { emptyState with
    files := writeFile emptyState.files "/tmp/mycroft/cache/tts/hi.wav" "AUDIO" }

/-- Witness for C8: a concrete hit leaves files and counters unchanged and
appends exactly the one job. -/
theorem execute_cache_hit_frame_witness :
    execute (fun t => t) ".wav" (fun _ _ fs => Except.ok (fs, "x", none))
        (fun _ => []) "hi" hitState =
      Except.ok { hitState with queue := hitState.queue ++
        [(".wav", joinPath cacheDir ("hi" ++ ".wav"),
          (fun _ => ([] : List (String × ℚ)))
            (load_phonemes hitState ((fun t => t) "hi")))] } :=
  execute_cache_hit_frame (fun t => t) ".wav"
    (fun _ _ fs => Except.ok (fs, "x", none)) (fun _ => []) "hi" hitState
    "AUDIO" (by simp [hitState, emptyState, writeFile, joinPath, cacheDir])

/--
C5: on a cache miss, if the backend's `get_tts` raises, `execute`
propagates the error to its caller and performs nothing else: the error
carries the state exactly as it was — no playback job queued, no payload
written, no curation performed.
-/
theorem execute_synthesis_error (hash : String → String) (ttsType : String)
    (get_tts : Backend) (visime : Option String → List (String × ℚ))
    (sentence : String) (s : TTSState) (msg : String)
    (hmiss : s.files (joinPath cacheDir (hash sentence ++ ttsType)) = none)
    (herr : get_tts sentence (joinPath cacheDir (hash sentence ++ ttsType))
        s.files = Except.error msg) :
    execute hash ttsType get_tts visime sentence s = Except.error (msg, s) := by
  simp [execute, hmiss, herr]

/-- Witness for C5: a concrete failing backend aborts the request with the
state unchanged. -/
theorem execute_synthesis_error_witness :
    execute (fun t => t) ".wav" (fun _ _ _ => Except.error "SynthesisError")
        (fun _ => []) "hi" emptyState =
      Except.error ("SynthesisError", emptyState) :=
  execute_synthesis_error (fun t => t) ".wav"
    (fun _ _ _ => Except.error "SynthesisError") (fun _ => []) "hi"
    emptyState "SynthesisError" rfl rfl

/--
C4: if the backend always succeeds and always leaves the audio artifact at
the destination path it was handed, then two consecutive `execute` calls
with the same sentence invoke `get_tts` at most once: the first call bumps
the synthesis counter by at most one and the second call is a cache hit
that does not invoke the backend at all.
-/
theorem execute_idempotent (hash : String → String) (ttsType : String)
    (get_tts : Backend) (visime : Option String → List (String × ℚ))
    (sentence : String) (s : TTSState)
    (hb : ∀ snt p fs, ∃ out, get_tts snt p fs = Except.ok out ∧
      (out.1 p).isSome) :
    ∃ s1 s2,
      execute hash ttsType get_tts visime sentence s = Except.ok s1 ∧
      execute hash ttsType get_tts visime sentence s1 = Except.ok s2 ∧
      s1.synthCount ≤ s.synthCount + 1 ∧
      s2.synthCount = s1.synthCount := by
  cases h : s.files (joinPath cacheDir (hash sentence ++ ttsType)) with
  | some c =>
      refine ⟨_, _, execute_hit_eq hash ttsType get_tts visime sentence s c h,
        execute_hit_eq hash ttsType get_tts visime sentence _ c h, ?_, ?_⟩ <;>
        simp
  | none =>
      obtain ⟨⟨fs2, w2, ph⟩, hget, hsome⟩ :=
        hb sentence (joinPath cacheDir (hash sentence ++ ttsType)) s.files
      have hstep :=
        execute_miss_eq hash ttsType get_tts visime sentence s fs2 w2 ph h hget
      simp only [Prod.fst] at hsome
      obtain ⟨c2, hc2⟩ := Option.isSome_iff_exists.mp hsome
      cases ph with
      | none =>
          refine ⟨_, _, hstep,
            execute_hit_eq hash ttsType get_tts visime sentence _ c2 ?_,
            ?_, ?_⟩ <;> simp [hc2]
      | some p2 =>
          by_cases hp2 : p2 = ""
          · subst hp2
            refine ⟨_, _, hstep,
              execute_hit_eq hash ttsType get_tts visime sentence _ c2 ?_,
              ?_, ?_⟩ <;> simp [hc2]
          · by_cases hpho :
              joinPath cacheDir (hash sentence ++ ttsType) =
                phoPath (hash sentence)
            · refine ⟨_, _, hstep,
                execute_hit_eq hash ttsType get_tts visime sentence _ p2 ?_,
                ?_, ?_⟩ <;>
                simp [save_phonemes, writeFile, hp2, hpho]
            · refine ⟨_, _, hstep,
                execute_hit_eq hash ttsType get_tts visime sentence _ c2 ?_,
                ?_, ?_⟩ <;>
                simp [save_phonemes, writeFile, hp2, hpho, hc2]

/-- Witness for C4: a concrete well-behaved backend is invoked exactly once
across two `execute` calls for the same sentence. -/
theorem execute_idempotent_witness :
    ∃ s1 s2,
      execute (fun t => t) ".wav"
          (fun _ p fs => Except.ok (writeFile fs p "AUDIO", p, some "PH"))
          (fun _ => []) "hi" emptyState = Except.ok s1 ∧
      execute (fun t => t) ".wav"
          (fun _ p fs => Except.ok (writeFile fs p "AUDIO", p, some "PH"))
          (fun _ => []) "hi" s1 = Except.ok s2 ∧
      s1.synthCount ≤ emptyState.synthCount + 1 ∧
      s2.synthCount = s1.synthCount :=
  execute_idempotent (fun t => t) ".wav"
    (fun _ p fs => Except.ok (writeFile fs p "AUDIO", p, some "PH"))
    (fun _ => []) "hi" emptyState
    (fun _ p _ => ⟨_, rfl, by simp [writeFile]⟩)

/-! ## TTS construction (`TTS.__init__`) -/

/--
The fields of `TTS.__init__(self, lang, voice, validator)` that are plain
data (the queue, playback thread, enclosure and cache-clearing side
effects are modelled elsewhere):

```
self.lang = lang or 'en-us'
self.voice = voice
self.filename = '/tmp/tts.wav'
```

`lang` may be `None` (modelled as `Option.none`); `lang or 'en-us'` is
Python truthiness — `None` and `""` both fall back to `'en-us'`.
-/
structure TTSFields where
  lang : String
  voice : String
  filename : String

/-- Embedding of the `TTS.__init__` field assignments. -/
def ttsInit (lang : Option String) (voice : String) : TTSFields :=
  { lang :=
      match lang with
      | none => "en-us"
      | some l => if l = "" then "en-us" else l,
    voice := voice,
    filename := "/tmp/tts.wav" }

/--
C10: constructing a TTS with an absent or empty (falsy) language selector
sets the instance language to `"en-us"`; a non-empty language is kept as
given.
-/
theorem ttsInit_lang_default (voice : String) :
    (ttsInit none voice).lang = "en-us" ∧
    (ttsInit (some "") voice).lang = "en-us" ∧
    ∀ l, l ≠ "" → (ttsInit (some l) voice).lang = l := by
  refine ⟨rfl, rfl, fun l hl => ?_⟩
  simp [ttsInit, hl]

/-- Witness for C10 at voice `"ap"` and language `"pt-br"`. -/
theorem ttsInit_lang_default_witness :
    (ttsInit none "ap").lang = "en-us" ∧
    (ttsInit (some "") "ap").lang = "en-us" ∧
    (ttsInit (some "pt-br") "ap").lang = "pt-br" :=
  ⟨(ttsInit_lang_default "ap").1, (ttsInit_lang_default "ap").2.1,
    (ttsInit_lang_default "ap").2.2 "pt-br" (by decide)⟩

/-! ## Playback thread: consumer loop (`PlaybackThread.run`) and `stop` -/

/-- A playback job as queued by `execute`: `(snd_type, data, visimes)`. -/
structure Job where
  sndType : String
  data : String
  visimes : List (String × ℚ)

/-- A call to one of the audio playback collaborators
(`play_wav` / `play_mp3`). -/
inductive PlayCall where
  | wav (file : String)
  | mp3 (file : String)
deriving DecidableEq

/-- Observable outcome of the consumer handling one dequeued job:
which playback collaborator calls were started, which viseme emissions
occurred, and whether the job ended through the swallowed-exception
path of the bare `except` in `run`. -/
structure JobResult where
  plays : List PlayCall
  emitted : List (String × ℚ)
  swallowed : Bool

/--
Embedding of the per-job body of `PlaybackThread.run`:

```
snd_type, data, visimes = self.queue.get(timeout=2)
self.blink(0.5)
if snd_type == 'wav':
    p = play_wav(data)
elif snd_type == 'mp3':
    p = play_mp3(data)
if visimes:
    self.show_visimes(visimes)
p.communicate()
self.blink(0.2)
```

wrapped in `try: ... except: pass`.  `blink` is a cosmetic call to the
enclosure collaborator and is not modelled.  When `snd_type` is neither
`'wav'` nor `'mp3'`, the local `p` is never bound, so `p.communicate()`
raises `UnboundLocalError`, which the bare `except` swallows — after the
viseme walk has already run.
-/
def handleJob (stopSig buttonSig : Nat → Bool) (hasEncl : Bool)
    (j : Job) : JobResult :=
  let em := if j.visimes.isEmpty then []
            else show_visimes stopSig buttonSig hasEncl 0 0 j.visimes
  if j.sndType = "wav" then
    { plays := [PlayCall.wav j.data], emitted := em, swallowed := false }
  else if j.sndType = "mp3" then
    { plays := [PlayCall.mp3 j.data], emitted := em, swallowed := false }
  else
    { plays := [], emitted := em, swallowed := true }

/-- The consumer loop of `PlaybackThread.run` over the jobs it dequeues,
in FIFO order: every job is handled, whatever its outcome — a swallowed
per-job exception never stops the loop. -/
def runLoop (stopSig buttonSig : Nat → Bool) (hasEncl : Bool) :
    List Job → List JobResult
  | [] => []
  | j :: rest =>
      handleJob stopSig buttonSig hasEncl j ::
        runLoop stopSig buttonSig hasEncl rest

/-- Queue/termination-flag state of a `PlaybackThread`. -/
structure PlaybackState where
  queue : List Job
  terminated : Bool

/--
Embedding of `PlaybackThread.stop(self)`:

```
self._terminated = True
while not self.queue.empty():
    queue.get()
```

The loop body reads the global name `queue`, which is not defined in the
module (the imported name is `Queue`), so the first iteration — reached
exactly when the queue is non-empty — raises `NameError`.  The error
carries the state at the raise: the termination flag is already set and
the queue is not drained.
-/
def stop (s : PlaybackState) : Except (String × PlaybackState) PlaybackState :=
  let s1 : PlaybackState := { s with terminated := true }
  if s1.queue.isEmpty then Except.ok s1
  else Except.error ("NameError: global name queue is not defined", s1)

/-- A representative queued job. -/
def jobA : Job := { sndType := "wav", data := "/tmp/a.wav", visimes := [] }

/--
C3: the claim says `stop()` drains every remaining job from a non-empty
queue without raising.  The code sets the termination flag and then loops
`queue.get()` on the undefined global name `queue` (instead of
`self.queue`), so on any non-empty queue the first drain attempt raises
`NameError` and nothing is drained; only the empty-queue call returns
normally.
-/
theorem stop_nonempty_queue_raises :
    stop { queue := [jobA], terminated := false } =
      Except.error ("NameError: global name queue is not defined",
        { queue := [jobA], terminated := true }) ∧
    stop { queue := [], terminated := false } =
      Except.ok { queue := [], terminated := true } :=
  ⟨rfl, rfl⟩

@[simp] lemma visemeTargets_length (e : ℚ) (l : List ℚ) :
    (visemeTargets e l).length = l.length := by
  induction l generalizing e with
  | nil => rfl
  | cons d ds ih => simp [visemeTargets, ih]

lemma show_visimes_cutoff (stopSig buttonSig : Nat → Bool) (hasEncl : Bool) :
    ∀ (k : Nat) (evs : List (String × ℚ)) (i : Nat) (e : ℚ),
      (stopSig (i + k) || buttonSig (i + k)) = true →
      (∀ j, j < k → (stopSig (i + j) || buttonSig (i + j)) = false) →
      show_visimes stopSig buttonSig hasEncl i e evs =
        show_visimes (fun _ => false) (fun _ => false) hasEncl i e
          (evs.take k) := by
  intro k
  induction k with
  | zero =>
      intro evs i e hsig _
      cases evs with
      | nil => simp [show_visimes]
      | cons hd tl =>
          obtain ⟨c, d⟩ := hd
          rcases Bool.or_eq_true_iff.mp (by simpa using hsig) with hs | hbtn
          · simp [show_visimes, hs]
          · cases hstop : stopSig i <;> simp [show_visimes, hstop, hbtn]
  | succ k ih =>
      intro evs i e hsig hbefore
      cases evs with
      | nil => simp [show_visimes]
      | cons hd tl =>
          obtain ⟨c, d⟩ := hd
          have h0 : (stopSig i || buttonSig i) = false := by
            simpa using hbefore 0 (Nat.succ_pos k)
          obtain ⟨hs0, hb0⟩ := Bool.or_eq_false_iff.mp h0
          have hsig2 : (stopSig (i + 1 + k) || buttonSig (i + 1 + k)) = true := by
            have hidx : i + 1 + k = i + (k + 1) := by omega
            rw [hidx]; exact hsig
          have hbefore2 :
              ∀ j, j < k → (stopSig (i + 1 + j) || buttonSig (i + 1 + j)) = false := by
            intro j hj
            have hidx : i + 1 + j = i + (j + 1) := by omega
            rw [hidx]; exact hbefore (j + 1) (by omega)
          have htail := ih tl (i + 1) (max e d) hsig2 hbefore2
          cases hasEncl <;> simp [show_visimes, hs0, hb0, htail]

/--
C7: if an interrupt signal ("stop requested" or "button pressed", both
polled once per event iteration) is first observed at iteration `k` of the
viseme walk, the walk emits nothing from iteration `k` on — it behaves
exactly like an uninterrupted walk over the first `k` events (so at most
`k` emissions) and returns a value rather than raising; and the consumer
loop goes on to process every subsequently queued job.
-/
theorem visime_walk_cancellation (stopSig buttonSig : Nat → Bool)
    (evs : List (String × ℚ)) (k : Nat) (e : ℚ)
    (hk : (stopSig k || buttonSig k) = true)
    (hbefore : ∀ j, j < k → (stopSig j || buttonSig j) = false)
    (j0 : Job) (rest : List Job) :
    show_visimes stopSig buttonSig true 0 e evs =
      show_visimes (fun _ => false) (fun _ => false) true 0 e (evs.take k) ∧
    (show_visimes stopSig buttonSig true 0 e evs).length ≤ k ∧
    runLoop stopSig buttonSig true (j0 :: rest) =
      handleJob stopSig buttonSig true j0 ::
        runLoop stopSig buttonSig true rest := by
  have h1 := show_visimes_cutoff stopSig buttonSig true k evs 0 e
    (by simpa using hk) (by intro j hj; simpa using hbefore j hj)
  refine ⟨h1, ?_, rfl⟩
  rw [h1, show_visimes_no_signal]
  simp

/-- Witness for C7: the button signal fires at iteration 1, so only the
first of three events is emitted, and a queued follow-up job is still
processed. -/
theorem visime_walk_cancellation_witness :
    show_visimes (fun _ => false) (fun n => n == 1) true 0 0
        [("A", (1 : ℚ)/2), ("B", (3 : ℚ)/10), ("C", 1)] =
      show_visimes (fun _ => false) (fun _ => false) true 0 0
        ([("A", (1 : ℚ)/2), ("B", (3 : ℚ)/10), ("C", 1)].take 1) ∧
    (show_visimes (fun _ => false) (fun n => n == 1) true 0 0
        [("A", (1 : ℚ)/2), ("B", (3 : ℚ)/10), ("C", 1)]).length ≤ 1 ∧
    runLoop (fun _ => false) (fun n => n == 1) true (jobA :: [jobA]) =
      handleJob (fun _ => false) (fun n => n == 1) true jobA ::
        runLoop (fun _ => false) (fun n => n == 1) true [jobA] :=
  visime_walk_cancellation (fun _ => false) (fun n => n == 1)
    [("A", (1 : ℚ)/2), ("B", (3 : ℚ)/10), ("C", 1)] 1 0 (by decide)
    (by decide) jobA [jobA]

/--
Everything `TTSValidator.validate` consults.  `instOk` is the result of
the `isinstance(self.tts, clazz)` test and `className` the expected class
name (`get_tts_class` is engine-specific); `filename` is `self.tts.filename`;
`dirExists` / `dirIsDir` are what `exists` / `isdir` report for
`dirname(filename)` (filesystem collaborator); `langCheck` / `connCheck`
are the outcomes of the engine-specific abstract `validate_lang` /
`validate_connection`; `audioExt` is the backend's expected audio
extension (used only by the spec-worded variant of the filename check).
-/
structure ValidateEnv where
  instOk : Bool
  className : String
  filename : String
  dirExists : Bool
  dirIsDir : Bool
  audioExt : String
  langCheck : Except String Unit
  connCheck : Except String Unit

/--
Embedding of `TTSValidator.validate_instance`:

```
clazz = self.get_tts_class()
if not isinstance(self.tts, clazz):
    raise AttributeError('tts must be instance of ' + clazz.__name__)
```
-/
def validate_instance (env : ValidateEnv) : Except String Unit :=
  if env.instOk then Except.ok ()
  else Except.error ("tts must be instance of " ++ env.className)

/-- Python `s.endswith(suffix)`: the character list of `suffix` matches the
tail of the character list of `s`. -/
def endswith (s suf : String) : Bool :=
  suf.toList == s.toList.drop (s.toList.length - suf.toList.length)

/--
Embedding of `TTSValidator.validate_filename`:

```
filename = self.tts.filename
if not (filename and filename.endswith('.wav')):
    raise AttributeError('file: %s must be in .wav format!' % filename)
dir_path = dirname(filename)
if not (exists(dir_path) and isdir(dir_path)):
    raise AttributeError('filename: %s is not valid!' % filename)
```

Note the extension check is the hard-coded literal `'.wav'`.
-/
def validate_filename (env : ValidateEnv) : Except String Unit :=
  if !(env.filename != "" && endswith env.filename ".wav") then
    Except.error ("file: " ++ env.filename ++ " must be in .wav format!")
  else if !(env.dirExists && env.dirIsDir) then
    Except.error ("filename: " ++ env.filename ++ " is not valid!")
  else Except.ok ()

/--
Modelled from the spec's words, for the refinement comparison only: the
claim's version of the output-path check, in which the filename "must end
in the backend's expected audio extension" rather than in the literal
`'.wav'`.
-/
def validate_filenameClaim (env : ValidateEnv) : Except String Unit :=
  if !(env.filename != "" && endswith env.filename env.audioExt) then
    Except.error ("file: " ++ env.filename ++ " must be in " ++
      env.audioExt ++ " format!")
  else if !(env.dirExists && env.dirIsDir) then
    Except.error ("filename: " ++ env.filename ++ " is not valid!")
  else Except.ok ()

/--
Embedding of `TTSValidator.validate`:

```
self.validate_instance()
self.validate_filename()
self.validate_lang()
self.validate_connection()
```

Each step's exception aborts the remaining steps.
-/
def validate (env : ValidateEnv) : Except String Unit :=
  match validate_instance env with
  | Except.error e => Except.error e
  | Except.ok _ =>
      match validate_filename env with
      | Except.error e => Except.error e
      | Except.ok _ =>
          match env.langCheck with
          | Except.error e => Except.error e
          | Except.ok _ => env.connCheck

/-- The first failing check in a list of check outcomes, or success. -/
def firstCheck : List (Except String Unit) → Except String Unit
  | [] => Except.ok ()
  | Except.ok _ :: rest => firstCheck rest
  | Except.error e :: _ => Except.error e

/-- An environment for a backend whose audio extension is `.mp3` and whose
configured filename matches it. -/
def mp3Env : ValidateEnv :=
  { instOk := true, className := "MP3TTS", filename := "/tmp/tts.mp3",
    dirExists := true, dirIsDir := true, audioExt := ".mp3",
    langCheck := Except.ok (), connCheck := Except.ok () }

/--
C6: the claim describes the output-path check as requiring the configured
filename to end in *the backend's expected audio extension*.  The code
hard-codes the literal `'.wav'`: for a backend whose extension is `.mp3`
and whose filename is `/tmp/tts.mp3` (directory present), the claimed
check passes but `validate` raises the `.wav`-format error.
-/
theorem validate_extension_counterexample :
    validate_filenameClaim mp3Env = Except.ok () ∧
    validate mp3Env =
      Except.error "file: /tmp/tts.mp3 must be in .wav format!" :=
  ⟨rfl, rfl⟩

/--
C6 (amended): `validate()` runs its checks in this fixed order —
instance-type check, then output-path well-formedness check (the
configured filename must be non-empty and end in the hard-coded `'.wav'`
extension, regardless of the backend's own audio extension, and its
containing directory must exist), then language/voice check, then
connectivity check — and the result is the first failing step's error
(whose message names that step), with no mutation of the instance's
state (the embedding is a pure function of the environment).
-/
theorem validate_runs_checks_in_order (env : ValidateEnv) :
    validate env = firstCheck [validate_instance env, validate_filename env,
      env.langCheck, env.connCheck] := by
  cases h1 : validate_instance env <;> cases h2 : validate_filename env <;>
    cases h3 : env.langCheck <;> cases h4 : env.connCheck <;>
      simp [validate, firstCheck, h1, h2, h3, h4]

end Mycroft.TTS
